import Mathlib

/-!
Verification of the Redfish resource-translation layer of the console
repository. The definitions below are shallow embeddings of the Go source
(package v1 under internal/controller/http/redfish/v1): pure Go helpers
become Lean functions, handler bodies become functions from their inputs
(parsed request data and modelled backend call results) to a response
record, and Go interface values become an inductive Go-value type.
-/

namespace redfishv1

/-! ## Go string primitives used by the source -/

/-- Checks whether the first list is a leading segment of the second,
mirroring the test Go performs inside strings.Contains. -/
def startsWithChars : List Char → List Char → Bool
  | [], _ => true
  | _ :: _, [] => false
  | a :: as, b :: bs => a = b && startsWithChars as bs

/-- Checks whether the needle occurs contiguously inside the haystack. -/
def containsChars (needle : List Char) : List Char → Bool
  | [] => startsWithChars needle []
  | c :: rest => startsWithChars needle (c :: rest) || containsChars needle rest

/-- Embedding of Go strings.Contains s sub. -/
def goContains (s sub : String) : Bool :=
  containsChars sub.data s.data

/-- Embedding of Go strings.ToLower for the ASCII data in this program. -/
def goToLower (s : String) : String :=
  String.mk (s.data.map Char.toLower)

/-- Test for the double-quote character, the cutset strings.Trim is given
by the conditional-header validators. -/
def quoteChar (c : Char) : Bool :=
  c = '"'

/-- List-level trimming of all leading and all trailing double quotes. -/
def trimChars (l : List Char) : List Char :=
  ((l.dropWhile quoteChar).reverse.dropWhile quoteChar).reverse

/-- Embedding of Go strings.Trim applied with the quote cutset: removes all
leading and all trailing double-quote characters. -/
def goTrimQuotes (s : String) : String :=
  String.mk (trimChars s.data)

/-! ## Error and header codec (redfishError and its wrappers) -/

/-- One element of the Message.ExtendedInfo array of a Redfish error body.
MessageArgs is the empty list when the source omits the key. -/
structure ExtendedInfo where
  MessageId : String
  Message : String
  Severity : String
  Resolution : String
  MessageArgs : List String
deriving DecidableEq, Repr

/-- The error object of a Redfish error body: code, message and the
Message.ExtendedInfo array. -/
structure RedfishErrorBody where
  code : String
  message : String
  extendedInfo : List ExtendedInfo
deriving DecidableEq, Repr

/-- Embedding of redfishError: builds the standard Redfish error response
structure with a single ExtendedInfo element. -/
def redfishError (messageID message severity resolution : String)
    (messageArgs : List String) : RedfishErrorBody :=
  { code := messageID
    message := message
    extendedInfo :=
      [{ MessageId := messageID
         Message := message
         Severity := severity
         Resolution := resolution
         MessageArgs := messageArgs }] }

/-- Redfish Base Message Registry id for success. -/
def BaseSuccessMessageID : String := "Base.1.11.0.Success"

/-- Redfish Base Message Registry id for a general error. -/
def BaseErrorMessageID : String := "Base.1.11.0.GeneralError"

/-- Redfish Base Message Registry id for malformed JSON. -/
def BaseMalformedJSONID : String := "Base.1.11.0.MalformedJSON"

/-- Redfish Base Message Registry id for a missing property. -/
def BasePropertyMissingID : String := "Base.1.11.0.PropertyMissing"

/-- Redfish Base Message Registry id for a property value outside the list. -/
def BasePropertyValueNotInListID : String := "Base.1.11.0.PropertyValueNotInList"

/-- Redfish Base Message Registry id for a missing resource. -/
def BaseResourceNotFoundID : String := "Base.1.11.0.ResourceNotFound"

/-- Redfish Base Message Registry id for an operation the state forbids. -/
def BaseOperationNotAllowedID : String := "Base.1.11.0.OperationNotAllowed"

/-- Redfish Base Message Registry id for failed content negotiation. -/
def BaseNotAcceptableID : String := "Base.1.11.0.NotAcceptable"

/-- Embedding of MalformedJSONError: status 400 with the malformed-JSON
registry message. -/
def MalformedJSONError : Nat × RedfishErrorBody :=
  (400, redfishError BaseMalformedJSONID
    "The request body submitted was malformed JSON and could not be parsed by the receiving service."
    "Critical"
    "Ensure that the request body is valid JSON and resubmit the request."
    [])

/-- Embedding of PropertyMissingError: status 400 with the property-missing
registry message. -/
def PropertyMissingError (propertyName : String) : Nat × RedfishErrorBody :=
  (400, redfishError BasePropertyMissingID
    ("The property " ++ propertyName ++
      " is a required property and must be included in the request.")
    "Warning"
    "Ensure that the property is in the request body and has a valid value and resubmit the request."
    [propertyName])

/-- Embedding of PropertyValueNotInListError: status 400 with the
property-value-not-in-list registry message. -/
def PropertyValueNotInListError (value propertyName : String) :
    Nat × RedfishErrorBody :=
  (400, redfishError BasePropertyValueNotInListID
    ("The value \x27" ++ value ++ "\x27 for the property " ++ propertyName ++
      " is not in the list of acceptable values.")
    "Warning"
    "Choose a value from the enumeration list that the implementation can support and resubmit the request if the operation failed."
    [value, propertyName])

/-- Embedding of ResourceNotFoundError: status 404 with the
resource-not-found registry message. -/
def ResourceNotFoundError (resourceType resourceID : String) :
    Nat × RedfishErrorBody :=
  (404, redfishError BaseResourceNotFoundID
    ("The requested resource of type " ++ resourceType ++ " named \x27" ++
      resourceID ++ "\x27 was not found.")
    "Critical"
    "Provide a valid resource identifier and resubmit the request."
    [resourceType, resourceID])

/-- Embedding of OperationNotAllowedError: status 409 with the
operation-not-allowed registry message. -/
def OperationNotAllowedError : Nat × RedfishErrorBody :=
  (409, redfishError BaseOperationNotAllowedID
    "The operation was not successful because the resource is in a state that does not allow this operation."
    "Critical"
    "The operation was not successful because the resource is in a state that does not allow this operation."
    [])

/-- Embedding of GeneralError: status 500 with the general-error registry
message. -/
def GeneralError : Nat × RedfishErrorBody :=
  (500, redfishError BaseErrorMessageID
    "A general error has occurred. See ExtendedInfo for more information."
    "Critical"
    "None."
    [])

/-- Modelled from the spec: ServiceUnavailableError is called by the reset
handler for classified upstream communication failures but is not defined
under src; per spec sections 4.5 and 7 it answers 502 Bad Gateway with a
general-error body. -/
def ServiceUnavailableError : Nat × RedfishErrorBody :=
  (502, redfishError BaseErrorMessageID
    "A general error has occurred. See ExtendedInfo for more information."
    "Critical"
    "Retry the request after the upstream device becomes reachable."
    [])

/-- Modelled from the spec: ServiceTemporarilyUnavailableError is called for
classified overload or maintenance conditions but is not defined under src;
per spec sections 4.5 and 7 it answers 503 Service Unavailable with a
general-error body. -/
def ServiceTemporarilyUnavailableError : Nat × RedfishErrorBody :=
  (503, redfishError BaseErrorMessageID
    "A general error has occurred. See ExtendedInfo for more information."
    "Critical"
    "Retry the request after the service recovers."
    [])

/-- Modelled from the spec: NotAcceptableError is called by the Accept
validator but is not defined under src; per spec section 4.2 it answers 406
with the unacceptable value echoed in the error body. -/
def NotAcceptableError (acceptValue : String) : Nat × RedfishErrorBody :=
  (406, redfishError BaseNotAcceptableID
    ("The Accept header value " ++ acceptValue ++ " is not acceptable.")
    "Critical"
    "Request a media type of application/json and resubmit the request."
    [acceptValue])

/-- Modelled from the spec: UnsupportedMediaTypeError is called by the
Content-Type validator but is not defined under src; per spec section 4.2 it
answers 415. -/
def UnsupportedMediaTypeError (contentType : String) : Nat × RedfishErrorBody :=
  (415, redfishError BaseErrorMessageID
    ("The Content-Type " ++ contentType ++ " is not supported.")
    "Critical"
    "Use the media type application/json and resubmit the request."
    [contentType])

/-- Modelled from the spec: RequestEntityTooLargeError is called by the body
size validator but is not defined under src; per spec section 4.2 it answers
413 for bodies above the 1 MiB cap. -/
def RequestEntityTooLargeError (limit : String) : Nat × RedfishErrorBody :=
  (413, redfishError BaseErrorMessageID
    ("The request body exceeds the maximum size of " ++ limit ++ ".")
    "Critical"
    "Reduce the size of the request body and resubmit the request."
    [limit])

/-- Modelled from the spec: PreconditionFailedError is called by the
If-Match validator but is not defined under src; per spec section 4.2 it
answers 412 when the supplied entity tag does not match. -/
def PreconditionFailedError : Nat × RedfishErrorBody :=
  (412, redfishError BaseErrorMessageID
    "The ETag supplied did not match the current ETag of the resource."
    "Critical"
    "Retrieve the resource to obtain the current ETag and resubmit the request."
    [])

/-- Enumeration of the calls into the error codec defined in the source
error-utilities file, one constructor per exported error builder there. -/
inductive CodecCall where
  | malformedJSON
  | propertyMissing (propertyName : String)
  | propertyValueNotInList (value propertyName : String)
  | resourceNotFound (resourceType resourceID : String)
  | operationNotAllowed
  | generalError
deriving DecidableEq, Repr

/-- Response produced by each codec call: the HTTP status and the body. -/
def codecResponse : CodecCall → Nat × RedfishErrorBody
  | .malformedJSON => MalformedJSONError
  | .propertyMissing p => PropertyMissingError p
  | .propertyValueNotInList v p => PropertyValueNotInListError v p
  | .resourceNotFound t i => ResourceNotFoundError t i
  | .operationNotAllowed => OperationNotAllowedError
  | .generalError => GeneralError

/-! ## CIM power-state mapping (getSystemInstanceHandler switch) -/

/-- Backend power-state DTO: field PowerState carries the CIM power code. -/
structure PowerStateDTO where
  PowerState : Int
deriving DecidableEq, Repr

/-- Backend power-action DTO: field ReturnValue carries the internal code. -/
structure PowerActionResult where
  ReturnValue : Int
deriving DecidableEq, Repr

/-- Embedding of the switch on ps.PowerState in getSystemInstanceHandler:
case 2 and cases 3,4 report On, cases 7,8 report Off, default Unknown. -/
def mapCimPowerState (ps : Int) : String :=
  if ps = 2 then "On"
  else if ps = 3 ∨ ps = 4 then "On"
  else if ps = 7 ∨ ps = 8 then "Off"
  else "Unknown"

/-- Payload of GET Systems/id as built by getSystemInstanceHandler. -/
structure SystemPayload where
  odataType : String
  odataId : String
  Id : String
  Name : String
  PowerState : String
  resetTarget : String
  allowableResetValues : List String
deriving DecidableEq, Repr

/-- Embedding of getSystemInstanceHandler: the GetPowerState backend call is
modelled by its result; a failed call leaves PowerState at Unknown and the
handler always answers 200 with the payload below. -/
def getSystemInstanceHandler (id : String)
    (psResult : Except String PowerStateDTO) : Nat × SystemPayload :=
  let powerState :=
    match psResult with
    | .error _ => "Unknown"
    | .ok ps => mapCimPowerState ps.PowerState
  (200,
    { odataType := "#ComputerSystem.v1_0_0.ComputerSystem"
      odataId := "/redfish/v1/Systems/" ++ id
      Id := id
      Name := "Computer System " ++ id
      PowerState := powerState
      resetTarget := "/redfish/v1/Systems/" ++ id ++ "/Actions/ComputerSystem.Reset"
      allowableResetValues := ["On", "ForceOff", "ForceRestart", "PowerCycle"] })

/-! ## Go interface values and the device-info extractor -/

/-- Untyped Go interface value as the hardware-info payloads carry it: nil,
a string, a finite float64 carried as the exact rational value the bits
denote, a map of string keys, a slice, or any other Go value the extractor
cannot type-assert. -/
inductive GoValue where
  | vnull
  | vstr (s : String)
  | vnum (q : ℚ)
  | vmap (entries : List (String × GoValue))
  | vlist (elems : List GoValue)
  | vother

/-- Character for one decimal digit. -/
def digitChar (d : Nat) : Char :=
  Char.ofNat (48 + d)

/-- Decimal digits of n, least significant first, driven by explicit fuel
so the definition is structural; fuel n suffices for value n. -/
def natDigitsRev : Nat → Nat → List Char
  | 0, _ => []
  | fuel + 1, n =>
    if n = 0 then [] else digitChar (n % 10) :: natDigitsRev fuel (n / 10)

/-- Decimal digits of n, least significant first. -/
def digitsOf (n : Nat) : List Char :=
  natDigitsRev n n

/-- Decimal notation of a natural number, most significant digit first. -/
def natToDecimal (n : Nat) : List Char :=
  if n = 0 then ['0'] else (digitsOf n).reverse

/-- Decimal notation of an integer, with a leading minus sign when it is
negative. -/
def intFmt (i : Int) : String :=
  if i < 0 then String.mk ('-' :: natToDecimal i.natAbs)
  else String.mk (natToDecimal i.natAbs)

/-- Rounding to the nearest integer with ties to even, the rounding Go fmt
applies to the exact value of a float64 when formatting with no decimals.
The floor is num divided by den (the denominator is positive) and the
remainder r compares to half: the fractional part is below, above or at one
half exactly as 2 times r is below, above or at den. -/
def roundHalfEven (q : ℚ) : Int :=
  let f := q.num / (q.den : Int)
  let r := q.num % (q.den : Int)
  if 2 * r < (q.den : Int) then f
  else if (q.den : Int) < 2 * r then f + 1
  else if f % 2 = 0 then f else f + 1

/-- Embedding of fmt.Sprintf applied with the percent dot zero f verb to a
finite float64: the exact value is correctly rounded to an integer, ties to
even, and printed in decimal. -/
def fmt0f (q : ℚ) : String :=
  intFmt (roundHalfEven q)

/-- The characters decimal integer notation can use. -/
def decimalChars : List Char :=
  ['-', '0', '1', '2', '3', '4', '5', '6', '7', '8', '9']

/-- Go map indexing: value of the first entry with the given key. -/
def lookupGo (entries : List (String × GoValue)) (key : String) :
    Option GoValue :=
  match entries.find? (fun kv => kv.1 = key) with
  | some kv => some kv.2
  | none => none

/-- The switch on the lowered package-type string in
mapPackageTypeToChassisType. -/
def packageTypeLookup (s : String) : String :=
  let l := goToLower s
  if l = "rack" ∨ l = "rackmount" ∨ l = "1u" ∨ l = "2u" ∨ l = "4u" then
    "RackMount"
  else if l = "desktop" ∨ l = "tower" ∨ l = "minitower" then "Desktop"
  else if l = "3" ∨ l = "4" then "RackMount"
  else if l = "2" then "Desktop"
  else "Unknown"

/-- Embedding of mapPackageTypeToChassisType: nil gives Unknown, a string is
used directly, a float64 is printed with the percent dot zero f verb (which
rounds its exact value to the nearest integer, ties to even), any other
value gives Unknown; the lowered string is then matched against the fixed
table. -/
def mapPackageTypeToChassisType (packageType : GoValue) : String :=
  match packageType with
  | .vnull => "Unknown"
  | .vstr s => packageTypeLookup s
  | .vnum q => packageTypeLookup (fmt0f q)
  | _ => "Unknown"

/-- Parsed chassis information, one field per member of the Go ChassisInfo
struct (Status flattened to its two fields, Location and PhysicalSecurity
always left empty by the extractor and omitted). -/
structure ChassisInfo where
  Name : String
  Description : String
  ChassisType : String
  Manufacturer : String
  Model : String
  SKU : String
  SerialNumber : String
  PartNumber : String
  AssetTag : String
  StatusState : String
  StatusHealth : String
  PowerState : String
  IndicatorLED : String
deriving DecidableEq, Repr

/-- Embedding of createDefaultChassisInfo. -/
def createDefaultChassisInfo : ChassisInfo :=
  { Name := "System Chassis"
    Description := "Computer System Chassis"
    ChassisType := "Unknown"
    Manufacturer := "Unknown"
    Model := "Unknown"
    SKU := ""
    SerialNumber := ""
    PartNumber := ""
    AssetTag := ""
    StatusState := "Enabled"
    StatusHealth := "OK"
    PowerState := "On"
    IndicatorLED := "Off" }

/-- Embedding of setStringField: the field is used only when the key exists,
the value is a string and the string is nonempty. -/
def getStringField (entries : List (String × GoValue)) (key : String) :
    Option String :=
  match lookupGo entries key with
  | some (.vstr s) => if s = "" then none else some s
  | _ => none

/-- Embedding of populateBasicInfo: copies Manufacturer, Model (which also
rewrites Name), SerialNumber, PartNumber, SKU and Tag when present. -/
def populateBasicInfo (ci : ChassisInfo)
    (m : List (String × GoValue)) : ChassisInfo :=
  let ci :=
    match getStringField m "Manufacturer" with
    | some v => { ci with Manufacturer := v }
    | none => ci
  let ci :=
    match getStringField m "Model" with
    | some v => { ci with Model := v, Name := v ++ " Chassis" }
    | none => ci
  let ci :=
    match getStringField m "SerialNumber" with
    | some v => { ci with SerialNumber := v }
    | none => ci
  let ci :=
    match getStringField m "PartNumber" with
    | some v => { ci with PartNumber := v }
    | none => ci
  let ci :=
    match getStringField m "SKU" with
    | some v => { ci with SKU := v }
    | none => ci
  match getStringField m "Tag" with
  | some v => { ci with AssetTag := v }
  | none => ci

/-- Embedding of populateChassisType: PackageType must exist and be non-nil
for the chassis type to be rewritten. -/
def populateChassisType (ci : ChassisInfo)
    (m : List (String × GoValue)) : ChassisInfo :=
  match lookupGo m "PackageType" with
  | some .vnull => ci
  | some v => { ci with ChassisType := mapPackageTypeToChassisType v }
  | none => ci

/-- Embedding of updateDescription: rewrites Description only when both
Manufacturer and Model were extracted. -/
def updateDescription (ci : ChassisInfo) : ChassisInfo :=
  if ci.Manufacturer ≠ "Unknown" ∧ ci.Model ≠ "Unknown" then
    { ci with
      Description := ci.Manufacturer ++ " " ++ ci.Model ++ " Chassis" }
  else ci

/-- Embedding of populateChassisInfo: a non-map item leaves the defaults. -/
def populateChassisInfo (ci : ChassisInfo) (item : GoValue) : ChassisInfo :=
  match item with
  | .vmap m => updateDescription (populateChassisType (populateBasicInfo ci m) m)
  | _ => ci

/-- Embedding of extractChassisDetails: a slice contributes its first
element, a single object is used directly, nil keeps the defaults. -/
def extractChassisDetails (response : GoValue) : ChassisInfo :=
  match response with
  | .vnull => createDefaultChassisInfo
  | .vlist [] => createDefaultChassisInfo
  | .vlist (x :: _) => populateChassisInfo createDefaultChassisInfo x
  | v => populateChassisInfo createDefaultChassisInfo v

/-- Embedding of parseChassisInfo: drills into CIM_Chassis then response,
substituting the defaults at every shape mismatch; the source never reports
an error from this path, so the result is total. -/
def parseChassisInfo (hardwareInfo : GoValue) : ChassisInfo :=
  match hardwareInfo with
  | .vmap m =>
    match lookupGo m "CIM_Chassis" with
    | some (.vmap cm) =>
      match lookupGo cm "response" with
      | some resp => extractChassisDetails resp
      | none => createDefaultChassisInfo
    | _ => createDefaultChassisInfo
  | _ => createDefaultChassisInfo

/-! ## Collection member builders -/

/-- Backend device record: only the GUID matters to the member builders. -/
structure Device where
  GUID : String
  Hostname : String
deriving DecidableEq, Repr

/-- Embedding of the member loop of getSystemsCollectionHandler: devices
with an empty GUID are skipped, every other device contributes one member
reference under /redfish/v1/Systems. -/
def buildSystemsMembers (items : List Device) : List String :=
  items.filterMap (fun it =>
    if it.GUID = "" then none
    else some ("/redfish/v1/Systems/" ++ it.GUID))

/-- Embedding of buildChassisMembers: devices with an empty GUID are
skipped, every other device contributes one member reference under
/redfish/v1/Chassis. -/
def buildChassisMembers (items : List Device) : List String :=
  items.filterMap (fun it =>
    if it.GUID = "" then none
    else some ("/redfish/v1/Chassis/" ++ it.GUID))

/-! ## Chassis instance GET handler with conditional requests -/

/-- HTTP request data the chassis handlers read: the method, the four
headers they consult (an empty string stands for an absent header) and the
declared body length. -/
structure HttpRequest where
  method : String
  accept : String
  contentType : String
  contentLength : Int
  ifMatch : String
  ifNoneMatch : String
deriving DecidableEq, Repr

/-- Embedding of isAcceptHeaderValid: a present Accept header must be the
wildcard, application/json, or contain one of the two. -/
def isAcceptHeaderValid (accept : String) : Bool :=
  if accept ≠ "" ∧ accept ≠ "*/*" ∧ accept ≠ "application/json" ∧
      goContains accept "application/json" = false ∧
      goContains accept "*/*" = false
  then false
  else true

/-- Embedding of Go strings.HasPrefix. -/
def goStartsWith (s pre : String) : Bool :=
  startsWithChars pre.data s.data

/-- Embedding of isContentTypeValid: a present Content-Type must be
application/json or start with it. -/
def isContentTypeValid (contentType : String) : Bool :=
  if contentType ≠ "" ∧ contentType ≠ "application/json" ∧
      goStartsWith contentType "application/json" = false
  then false
  else true

/-- Embedding of isRequestSizeValid against the 1 MiB cap. -/
def isRequestSizeValid (contentLength : Int) : Bool :=
  if contentLength > 1048576 then false else true

/-- Embedding of validateChassisRequest composed with the error each
validator writes: the Accept check runs first, and the Content-Type and
size checks run only for methods other than GET and HEAD; the result is the
error response of the first failing validator, if any. -/
def chassisRequestError (req : HttpRequest) : Option (Nat × RedfishErrorBody) :=
  if isAcceptHeaderValid req.accept = false then
    some (NotAcceptableError req.accept)
  else if req.method ≠ "GET" ∧ req.method ≠ "HEAD" then
    if isContentTypeValid req.contentType = false then
      some (UnsupportedMediaTypeError req.contentType)
    else if isRequestSizeValid req.contentLength = false then
      some (RequestEntityTooLargeError "1MB")
    else none
  else none

/-- Embedding of validateIfMatchHeader: an absent header passes; otherwise
both sides are stripped of surrounding quotes and the header must be the
wildcard star or equal the current entity tag. -/
def validateIfMatchHeader (ifMatch currentETag : String) : Bool :=
  if ifMatch = "" then true
  else
    let im := goTrimQuotes ifMatch
    let cur := goTrimQuotes currentETag
    if im ≠ "*" ∧ im ≠ cur then false else true

/-- Embedding of validateIfNoneMatchHeader: the check only applies to GET
with a present header; after stripping quotes from both sides, a star or a
match short-circuits (the handler then answers 304). -/
def validateIfNoneMatchHeader (method ifNoneMatch currentETag : String) : Bool :=
  if ifNoneMatch = "" ∨ method ≠ "GET" then true
  else
    let inm := goTrimQuotes ifNoneMatch
    let cur := goTrimQuotes currentETag
    if inm = "*" ∨ inm = cur then false else true

/-- Substring patterns of isUpstreamServiceError in the chassis file. -/
def isUpstreamServiceError (errText : String) : Bool :=
  goContains errText "connection refused" || goContains errText "timeout" ||
    goContains errText "unreachable"

/-- Substring patterns of isRateLimitError in the chassis file. -/
def isRateLimitError (errText : String) : Bool :=
  goContains errText "too many requests" || goContains errText "rate limit" ||
    goContains errText "overloaded"

/-- Substring patterns of isResourceNotFoundError in the chassis file. -/
def isResourceNotFoundError (errText : String) : Bool :=
  goContains errText "not found" || goContains errText "invalid" ||
    goContains errText "does not exist"

/-- Modelled from the spec: BadGatewayError is called for upstream service
failures but is not defined under src; per spec section 7 it answers 502. -/
def BadGatewayError : Nat × RedfishErrorBody :=
  (502, redfishError BaseErrorMessageID
    "A general error has occurred. See ExtendedInfo for more information."
    "Critical"
    "Retry the request after the upstream device becomes reachable."
    [])

/-- Embedding of handleHardwareInfoError: not-found errors and unknown
device errors answer 404, upstream service errors 502, rate-limit errors
503. -/
def handleHardwareInfoError (errText chassisID : String) :
    Nat × RedfishErrorBody :=
  if isResourceNotFoundError errText then
    ResourceNotFoundError "Chassis" chassisID
  else if isUpstreamServiceError errText then BadGatewayError
  else if isRateLimitError errText then ServiceTemporarilyUnavailableError
  else ResourceNotFoundError "Chassis" chassisID

/-- Redfish Chassis instance payload as buildChassisInstance emits it,
reduced to its scalar fields plus the single ComputerSystems link. -/
structure ChassisResource where
  odataContext : String
  odataId : String
  odataType : String
  odataEtag : String
  Id : String
  Name : String
  Description : String
  ChassisType : String
  Manufacturer : String
  Model : String
  SKU : String
  SerialNumber : String
  PartNumber : String
  AssetTag : String
  StatusState : String
  StatusHealth : String
  PowerState : String
  IndicatorLED : String
  computerSystemLink : String
deriving DecidableEq, Repr

/-- Embedding of buildChassisInstance. -/
def buildChassisInstance (chassisID : String) (ci : ChassisInfo)
    (etag : String) : ChassisResource :=
  { odataContext := "/redfish/v1/$metadata#Chassis.Chassis"
    odataId := "/redfish/v1/Chassis/" ++ chassisID
    odataType := "#Chassis.v1_21_0.Chassis"
    odataEtag := etag
    Id := chassisID
    Name := ci.Name
    Description := ci.Description
    ChassisType := ci.ChassisType
    Manufacturer := ci.Manufacturer
    Model := ci.Model
    SKU := ci.SKU
    SerialNumber := ci.SerialNumber
    PartNumber := ci.PartNumber
    AssetTag := ci.AssetTag
    StatusState := ci.StatusState
    StatusHealth := ci.StatusHealth
    PowerState := ci.PowerState
    IndicatorLED := ci.IndicatorLED
    computerSystemLink := "/redfish/v1/Systems/" ++ chassisID }

/-- Result of GET on a Chassis instance: a 200 with the quoted ETag header
and the payload, a 304 with no body, or an error response. -/
inductive ChassisGetResult where
  | ok (etagHeader : String) (body : ChassisResource)
  | notModified
  | errResp (status : Nat) (e : RedfishErrorBody)
deriving DecidableEq, Repr

/-- Embedding of getChassisInstanceHandler. The entity-tag computation
combines the parsed chassis data with an hour-granularity time bucket; the
hash itself is the etagGen input, a pure function of those two values, and
timeBucket holds the bucket both of the involved sha256 inputs share within
one hour. The ETag response header is the quoted tag. -/
def getChassisInstanceHandler (etagGen : ChassisInfo → String → String)
    (timeBucket : String) (req : HttpRequest) (chassisID : String)
    (hwInfo : Except String GoValue) : ChassisGetResult :=
  match chassisRequestError req with
  | some sb => .errResp sb.1 sb.2
  | none =>
    if chassisID = "" then
      .errResp (ResourceNotFoundError "Chassis" "").1
        (ResourceNotFoundError "Chassis" "").2
    else
      match hwInfo with
      | .error e =>
        .errResp (handleHardwareInfoError e chassisID).1
          (handleHardwareInfoError e chassisID).2
      | .ok hw =>
        let chassisInfo := parseChassisInfo hw
        let etag := etagGen chassisInfo timeBucket
        if validateIfMatchHeader req.ifMatch etag = false then
          .errResp PreconditionFailedError.1 PreconditionFailedError.2
        else if validateIfNoneMatchHeader req.method req.ifNoneMatch etag =
            false then
          .notModified
        else
          .ok ("\"" ++ etag ++ "\"")
            (buildChassisInstance chassisID chassisInfo etag)

/-! ## ComputerSystem.Reset action state machine -/

/-- Embedding of resetTypeToAction, the switch on body.ResetType in
postSystemResetHandler: On, ForceOff, ForceRestart and PowerCycle map to the
backend action codes 2, 8, 10 and 5; anything else has no action. -/
def resetTypeToAction (rt : String) : Option Int :=
  if rt = "On" then some 2
  else if rt = "ForceOff" then some 8
  else if rt = "ForceRestart" then some 10
  else if rt = "PowerCycle" then some 5
  else none

/-- Result of binding the reset request body: either the JSON failed to
parse, or it parsed and ResetType holds the bound string, with the empty
string standing for an absent field exactly as Go binding does. -/
inductive ResetRequestBody where
  | malformed
  | parsed (resetType : String)

/-- Substring patterns of isUpstreamCommunicationError, copied from the
source list. -/
def upstreamErrorPatterns : List String :=
  ["connection refused", "connection timeout", "timeout",
   "network unreachable", "no route to host", "connection reset",
   "wsman", "amt", "unauthorized", "certificate", "ssl", "tls",
   "dial tcp", "i/o timeout", "connection aborted", "host unreachable"]

/-- Embedding of isUpstreamCommunicationError: the lowered error text must
contain one of the upstream communication patterns. -/
def isUpstreamCommunicationError (errText : String) : Bool :=
  upstreamErrorPatterns.any (fun p => goContains (goToLower errText) p)

/-- Substring patterns of isServiceTemporarilyUnavailable, copied from the
source list. -/
def serviceUnavailablePatterns : List String :=
  ["too many connections", "connection pool exhausted", "database pool full",
   "service overloaded", "maintenance mode", "rate limit exceeded",
   "too many requests", "resource exhausted", "service unavailable",
   "temporarily unavailable", "max connections reached", "server overloaded",
   "capacity exceeded", "throttled", "circuit breaker"]

/-- Embedding of isServiceTemporarilyUnavailable: the lowered error text
must contain one of the overload or maintenance patterns. -/
def isServiceTemporarilyUnavailable (errText : String) : Bool :=
  serviceUnavailablePatterns.any (fun p => goContains (goToLower errText) p)

/-- Embedding of the not-found test inside the reset error branch: the
lowered text contains not found, or the raw text contains DevicesUseCase. -/
def isResetNotFoundError (errText : String) : Bool :=
  goContains (goToLower errText) "not found" || goContains errText "DevicesUseCase"

/-- Embedding of the error branch of postSystemResetHandler after
SendPowerAction fails: not-found errors answer 404, temporary-unavailability
errors 503, upstream communication errors 502 and everything else 500, in
exactly the order the source checks them. -/
def resetErrorResponse (errText id : String) : Nat × RedfishErrorBody :=
  if isResetNotFoundError errText then
    ResourceNotFoundError "ComputerSystem" id
  else if isServiceTemporarilyUnavailable errText then
    ServiceTemporarilyUnavailableError
  else if isUpstreamCommunicationError errText then
    ServiceUnavailableError
  else
    GeneralError

/-- Embedding of the conflict guard of postSystemResetHandler: with a
successful power-state query, requesting power-up while the current code is
exactly 2, or power-down while it is 7 or 8, is a conflict; a failed query
never reports a conflict. -/
def resetConflict (action : Int)
    (powerStateResult : Except String PowerStateDTO) : Bool :=
  match powerStateResult with
  | .error _ => false
  | .ok ps =>
    let isCurrentlyOn := ps.PowerState = 2
    let isCurrentlyOff := ps.PowerState = 7 ∨ ps.PowerState = 8
    (action = 2 ∧ isCurrentlyOn) ∨ (action = 8 ∧ isCurrentlyOff)

/-- Redfish Task resource synthesized by the reset handler, reduced to the
fields the handler fills from the action result. -/
structure TaskResponse where
  Id : String
  TaskState : String
  TaskStatus : String
  MessageId : String
  Message : String
  Severity : String
deriving DecidableEq, Repr

/-- Embedding of the Task synthesis after SendPowerAction returns without
error: a nonzero ReturnValue rewrites the Completed, OK, success defaults to
Exception, Critical with the general-error message. -/
def mkResetTask (taskID : String) (returnValue : Int) : TaskResponse :=
  if returnValue ≠ 0 then
    { Id := taskID
      TaskState := "Exception"
      TaskStatus := "Critical"
      MessageId := BaseErrorMessageID
      Message := "A general error has occurred."
      Severity := "Critical" }
  else
    { Id := taskID
      TaskState := "Completed"
      TaskStatus := "OK"
      MessageId := BaseSuccessMessageID
      Message := "The request completed successfully."
      Severity := "OK" }

/-- Body of a reset response: an error envelope or a Task resource. -/
inductive ResetBody where
  | errBody (e : RedfishErrorBody)
  | taskBody (t : TaskResponse)
deriving DecidableEq, Repr

/-- Observable outcome of one reset request: HTTP status, body, the action
code the switch produced, and whether each backend call was made. -/
structure ResetOutcome where
  status : Nat
  body : ResetBody
  mappedAction : Option Int
  getPowerStateCalled : Bool
  sendPowerActionCalled : Bool
deriving DecidableEq, Repr

/-- Backend results visible to one reset request: what GetPowerState and
SendPowerAction would answer if called. -/
structure ResetBackend where
  powerState : Except String PowerStateDTO
  sendAction : Except String PowerActionResult

/-- Embedding of postSystemResetHandler. The JSON binding result and the
two backend call results are inputs; the random task id drawn by the source
is the taskID input. The outcome records which backend calls were reached:
GetPowerState is only reached after validation, SendPowerAction only when
the conflict guard passes. -/
def postSystemResetHandler (id taskID : String) (body : ResetRequestBody)
    (be : ResetBackend) : ResetOutcome :=
  match body with
  | .malformed =>
    { status := MalformedJSONError.1
      body := .errBody MalformedJSONError.2
      mappedAction := none
      getPowerStateCalled := false
      sendPowerActionCalled := false }
  | .parsed rt =>
    if rt = "" then
      { status := (PropertyMissingError "ResetType").1
        body := .errBody (PropertyMissingError "ResetType").2
        mappedAction := none
        getPowerStateCalled := false
        sendPowerActionCalled := false }
    else
      match resetTypeToAction rt with
      | none =>
        { status := (PropertyValueNotInListError rt "ResetType").1
          body := .errBody (PropertyValueNotInListError rt "ResetType").2
          mappedAction := none
          getPowerStateCalled := false
          sendPowerActionCalled := false }
      | some action =>
        if resetConflict action be.powerState then
          { status := OperationNotAllowedError.1
            body := .errBody OperationNotAllowedError.2
            mappedAction := some action
            getPowerStateCalled := true
            sendPowerActionCalled := false }
        else
          match be.sendAction with
          | .error e =>
            { status := (resetErrorResponse e id).1
              body := .errBody (resetErrorResponse e id).2
              mappedAction := some action
              getPowerStateCalled := true
              sendPowerActionCalled := true }
          | .ok res =>
            { status := 200
              body := .taskBody (mkResetTask taskID res.ReturnValue)
              mappedAction := some action
              getPowerStateCalled := true
              sendPowerActionCalled := true }

end redfishv1

namespace redfishv1

/-! ## Claim C2 and C10 theorems -/

/-- C2: for every backend power code, GET Systems/id reports PowerState On
for codes 2, 3, 4, Off for codes 7, 8, and Unknown for every other integer,
and the handler answers 200 (the mapping is total and never errors). -/
theorem C2_power_state_mapping (id : String) (code : Int) :
    (getSystemInstanceHandler id (.ok { PowerState := code })).1 = 200 ∧
    (getSystemInstanceHandler id (.ok { PowerState := code })).2.PowerState =
      (if code = 2 ∨ code = 3 ∨ code = 4 then "On"
       else if code = 7 ∨ code = 8 then "Off"
       else "Unknown") := by
  refine ⟨rfl, ?_⟩
  simp only [getSystemInstanceHandler, mapCimPowerState]
  by_cases h2 : code = 2 <;> by_cases h3 : code = 3 <;> by_cases h4 : code = 4 <;>
    by_cases h7 : code = 7 <;> by_cases h8 : code = 8 <;>
    simp [h2, h3, h4, h7, h8]

/-- C1 counterexample: requesting ResetType On while the power-state query
succeeds with code 3, which lies in the On-class 2, 3, 4 of the claim, does
not answer 409: the handler answers 200 and SendPowerAction is invoked. -/
theorem C1_counterexample :
    ((3 : Int) = 2 ∨ (3 : Int) = 3 ∨ (3 : Int) = 4) ∧
    (postSystemResetHandler "dev1" "100001" (.parsed "On")
      { powerState := .ok { PowerState := 3 },
        sendAction := .ok { ReturnValue := 0 } }).status = 200 ∧
    (postSystemResetHandler "dev1" "100001" (.parsed "On")
      { powerState := .ok { PowerState := 3 },
        sendAction := .ok { ReturnValue := 0 } }).sendPowerActionCalled =
      true := by
  exact ⟨Or.inr (Or.inl rfl), rfl, rfl⟩

/-- C1 amended: with a successful power-state query, ResetType On conflicts
with status 409 and no SendPowerAction call exactly when the current code is
2 (codes 3 and 4 proceed to the action), ResetType ForceOff conflicts when
the code is 7 or 8, and a failed power-state query skips the guard so the
action proceeds for every valid ResetType. -/
theorem C1_reset_conflict_guard (id taskID : String) (be : ResetBackend) :
    (∀ ps, be.powerState = .ok ps → ps.PowerState = 2 →
      (postSystemResetHandler id taskID (.parsed "On") be).status = 409 ∧
      (postSystemResetHandler id taskID (.parsed "On") be).body =
        .errBody OperationNotAllowedError.2 ∧
      (postSystemResetHandler id taskID
        (.parsed "On") be).sendPowerActionCalled = false) ∧
    (∀ ps, be.powerState = .ok ps → ps.PowerState = 7 ∨ ps.PowerState = 8 →
      (postSystemResetHandler id taskID (.parsed "ForceOff") be).status =
        409 ∧
      (postSystemResetHandler id taskID (.parsed "ForceOff") be).body =
        .errBody OperationNotAllowedError.2 ∧
      (postSystemResetHandler id taskID
        (.parsed "ForceOff") be).sendPowerActionCalled = false) ∧
    (∀ ps, be.powerState = .ok ps → ps.PowerState = 3 ∨ ps.PowerState = 4 →
      (postSystemResetHandler id taskID
        (.parsed "On") be).sendPowerActionCalled = true) ∧
    (∀ e rt a, be.powerState = .error e → resetTypeToAction rt = some a →
      (postSystemResetHandler id taskID
        (.parsed rt) be).sendPowerActionCalled = true) := by
  obtain ⟨pst, sa⟩ := be
  refine ⟨?_, ?_, ?_, ?_⟩
  · intro ps hps h2
    obtain ⟨psv⟩ := ps
    simp only at hps h2
    subst hps
    subst h2
    exact ⟨rfl, rfl, rfl⟩
  · intro ps hps h78
    obtain ⟨psv⟩ := ps
    simp only at hps
    subst hps
    rcases h78 with h | h <;> simp only at h <;> subst h <;>
      exact ⟨rfl, rfl, rfl⟩
  · intro ps hps h34
    obtain ⟨psv⟩ := ps
    simp only at hps
    subst hps
    rcases h34 with h | h <;> simp only at h <;> subst h <;>
      cases sa <;> rfl
  · intro e rt a hps hrt
    simp only at hps
    subst hps
    have hne : ¬rt = "" := by
      intro h
      rw [h] at hrt
      exact Option.noConfusion hrt
    simp only [postSystemResetHandler, if_neg hne, hrt]
    cases sa <;> simp [resetConflict]

/-- Witness for C1 amended: a device already at power code 2 receiving On
yields 409 without a backend action, and a device whose power-state query
fails receives the PowerCycle action anyway. -/
theorem C1_witness :
    (postSystemResetHandler "dev1" "100001" (.parsed "On")
      { powerState := .ok { PowerState := 2 },
        sendAction := .ok { ReturnValue := 0 } }).status = 409 ∧
    (postSystemResetHandler "dev1" "100001" (.parsed "On")
      { powerState := .ok { PowerState := 2 },
        sendAction := .ok { ReturnValue := 0 } }).sendPowerActionCalled =
      false ∧
    (postSystemResetHandler "dev1" "100001" (.parsed "PowerCycle")
      { powerState := .error "wsman timeout",
        sendAction := .ok { ReturnValue := 0 } }).sendPowerActionCalled =
      true := by
  refine ⟨?_, ?_, ?_⟩
  · exact ((C1_reset_conflict_guard "dev1" "100001"
      { powerState := .ok { PowerState := 2 },
        sendAction := .ok { ReturnValue := 0 } }).1
      { PowerState := 2 } rfl rfl).1
  · exact ((C1_reset_conflict_guard "dev1" "100001"
      { powerState := .ok { PowerState := 2 },
        sendAction := .ok { ReturnValue := 0 } }).1
      { PowerState := 2 } rfl rfl).2.2
  · exact (C1_reset_conflict_guard "dev1" "100001"
      { powerState := .error "wsman timeout",
        sendAction := .ok { ReturnValue := 0 } }).2.2.2
      "wsman timeout" "PowerCycle" 5 rfl rfl

/-- C3: the four valid ResetType strings map deterministically to the
backend action codes 2, 8, 10 and 5; an empty or absent ResetType answers
400 with the property-missing error and any other string answers 400 with
the property-value-not-in-list error, in both cases before either backend
call is made; whenever the switch accepts, the recorded action equals the
table entry. -/
theorem C3_reset_type_validation (id taskID rt : String) (be : ResetBackend) :
    resetTypeToAction "On" = some 2 ∧
    resetTypeToAction "ForceOff" = some 8 ∧
    resetTypeToAction "ForceRestart" = some 10 ∧
    resetTypeToAction "PowerCycle" = some 5 ∧
    (rt = "" →
      (postSystemResetHandler id taskID (.parsed rt) be).status = 400 ∧
      (postSystemResetHandler id taskID (.parsed rt) be).body =
        .errBody (PropertyMissingError "ResetType").2 ∧
      (postSystemResetHandler id taskID
        (.parsed rt) be).getPowerStateCalled = false ∧
      (postSystemResetHandler id taskID
        (.parsed rt) be).sendPowerActionCalled = false) ∧
    (rt ≠ "" → resetTypeToAction rt = none →
      (postSystemResetHandler id taskID (.parsed rt) be).status = 400 ∧
      (postSystemResetHandler id taskID (.parsed rt) be).body =
        .errBody (PropertyValueNotInListError rt "ResetType").2 ∧
      (postSystemResetHandler id taskID
        (.parsed rt) be).getPowerStateCalled = false ∧
      (postSystemResetHandler id taskID
        (.parsed rt) be).sendPowerActionCalled = false) ∧
    (∀ a, resetTypeToAction rt = some a →
      (postSystemResetHandler id taskID (.parsed rt) be).mappedAction =
        some a) := by
  refine ⟨rfl, rfl, rfl, rfl, ?_, ?_, ?_⟩
  · intro h
    subst h
    exact ⟨rfl, rfl, rfl, rfl⟩
  · intro hne hnone
    simp [postSystemResetHandler, if_neg hne, hnone,
      PropertyValueNotInListError, redfishError]
  · intro a ha
    have hne : ¬rt = "" := by
      intro h
      rw [h] at ha
      exact Option.noConfusion ha
    simp only [postSystemResetHandler, if_neg hne, ha]
    by_cases hc : resetConflict a be.powerState
    · simp [hc]
    · simp only [hc]
      cases be.sendAction <;> simp

/-- Witness for C3: the string Sleep is rejected with 400 and the
value-not-in-list body before any backend call, and On records action 2. -/
theorem C3_witness :
    (postSystemResetHandler "dev1" "100001" (.parsed "Sleep")
      { powerState := .ok { PowerState := 7 },
        sendAction := .ok { ReturnValue := 0 } }).status = 400 ∧
    (postSystemResetHandler "dev1" "100001" (.parsed "Sleep")
      { powerState := .ok { PowerState := 7 },
        sendAction := .ok { ReturnValue := 0 } }).getPowerStateCalled =
      false ∧
    (postSystemResetHandler "dev1" "100001" (.parsed "On")
      { powerState := .ok { PowerState := 7 },
        sendAction := .ok { ReturnValue := 0 } }).mappedAction = some 2 := by
  refine ⟨?_, ?_, ?_⟩
  · exact ((C3_reset_type_validation "dev1" "100001" "Sleep"
      { powerState := .ok { PowerState := 7 },
        sendAction := .ok { ReturnValue := 0 } }).2.2.2.2.2.1
      (by decide) rfl).1
  · exact ((C3_reset_type_validation "dev1" "100001" "Sleep"
      { powerState := .ok { PowerState := 7 },
        sendAction := .ok { ReturnValue := 0 } }).2.2.2.2.2.1
      (by decide) rfl).2.2.1
  · exact (C3_reset_type_validation "dev1" "100001" "On"
      { powerState := .ok { PowerState := 7 },
        sendAction := .ok { ReturnValue := 0 } }).2.2.2.2.2.2 2 rfl

/-- C4: when the reset dispatch reaches SendPowerAction and the call
returns without error, the response is 200 carrying a Task; a nonzero
ReturnValue yields TaskState Exception, TaskStatus Critical and the
general-error message, and the Task is Completed with status OK exactly
when the ReturnValue is zero; a failed SendPowerAction call never yields a
Task body. -/
theorem C4_task_synthesis (id taskID rt : String) (a rv : Int)
    (ps : Except String PowerStateDTO)
    (hrt : resetTypeToAction rt = some a)
    (hnc : resetConflict a ps = false) :
    (postSystemResetHandler id taskID (.parsed rt)
      { powerState := ps, sendAction := .ok { ReturnValue := rv } }).status =
      200 ∧
    (postSystemResetHandler id taskID (.parsed rt)
      { powerState := ps, sendAction := .ok { ReturnValue := rv } }).body =
      .taskBody (mkResetTask taskID rv) ∧
    (rv ≠ 0 →
      (mkResetTask taskID rv).TaskState = "Exception" ∧
      (mkResetTask taskID rv).TaskStatus = "Critical" ∧
      (mkResetTask taskID rv).MessageId = BaseErrorMessageID) ∧
    ((mkResetTask taskID rv).TaskState = "Completed" ∧
      (mkResetTask taskID rv).TaskStatus = "OK" ↔ rv = 0) ∧
    (∀ e, ∃ b,
      (postSystemResetHandler id taskID (.parsed rt)
        { powerState := ps, sendAction := .error e }).body = .errBody b) := by
  have hne : ¬rt = "" := by
    intro h
    rw [h] at hrt
    exact Option.noConfusion hrt
  refine ⟨?_, ?_, ?_, ?_, ?_⟩
  · simp [postSystemResetHandler, if_neg hne, hrt, hnc]
  · simp [postSystemResetHandler, if_neg hne, hrt, hnc]
  · intro hrv
    simp [mkResetTask, hrv]
  · rcases eq_or_ne rv 0 with h0 | h0
    · subst h0
      exact iff_of_true ⟨rfl, rfl⟩ rfl
    · refine iff_of_false ?_ h0
      intro hP
      have hT : (mkResetTask taskID rv).TaskState = "Exception" := by
        simp [mkResetTask, h0]
      rw [hP.1] at hT
      exact absurd hT (by decide)
  · intro e
    refine ⟨(resetErrorResponse e id).2, ?_⟩
    simp [postSystemResetHandler, if_neg hne, hrt, hnc]

/-- Witness for C4: a dispatched On action with internal return code 2
answers 200 with an Exception, Critical Task, while return code 0 gives the
Completed, OK Task. -/
theorem C4_witness :
    (postSystemResetHandler "dev1" "100001" (.parsed "On")
      { powerState := .ok { PowerState := 7 },
        sendAction := .ok { ReturnValue := 2 } }).status = 200 ∧
    (mkResetTask "100001" 2).TaskState = "Exception" ∧
    (mkResetTask "100001" 2).TaskStatus = "Critical" ∧
    ((mkResetTask "100001" 0).TaskState = "Completed" ∧
      (mkResetTask "100001" 0).TaskStatus = "OK") := by
  have h2 := C4_task_synthesis "dev1" "100001" "On" 2 2
    (.ok { PowerState := 7 }) rfl rfl
  have h0 := C4_task_synthesis "dev1" "100001" "On" 2 0
    (.ok { PowerState := 7 }) rfl rfl
  refine ⟨h2.1, (h2.2.2.1 (by decide)).1, (h2.2.2.1 (by decide)).2.1, ?_⟩
  exact h0.2.2.2.1.mpr rfl

/-- C5 counterexample: the error text amt throttled matches an upstream
communication pattern, yet the dispatched reset answers 503, not the 502
the claim assigns to upstream-communication matches, because the
overload check runs first. -/
theorem C5_counterexample :
    isUpstreamCommunicationError "amt throttled" = true ∧
    (postSystemResetHandler "dev1" "100001" (.parsed "On")
      { powerState := .ok { PowerState := 7 },
        sendAction := .error "amt throttled" }).status = 503 ∧
    (postSystemResetHandler "dev1" "100001" (.parsed "On")
      { powerState := .ok { PowerState := 7 },
        sendAction := .error "amt throttled" }).status ≠ 502 := by
  exact ⟨rfl, rfl, by decide⟩

/-- C5 amended: the status of a failed SendPowerAction is chosen by
substring classification of the error text checked in source order:
resource-not-found patterns answer 404; otherwise overload or maintenance
patterns answer 503; otherwise upstream-communication patterns answer 502;
otherwise 500 (so an error matching both an upstream and an overload
pattern answers 503, not 502). -/
theorem C5_reset_error_classification (id taskID rt e : String) (a : Int)
    (ps : Except String PowerStateDTO)
    (hrt : resetTypeToAction rt = some a)
    (hnc : resetConflict a ps = false) :
    (isResetNotFoundError e = true →
      (postSystemResetHandler id taskID (.parsed rt)
        { powerState := ps, sendAction := .error e }).status = 404) ∧
    (isResetNotFoundError e = false →
      isServiceTemporarilyUnavailable e = true →
      (postSystemResetHandler id taskID (.parsed rt)
        { powerState := ps, sendAction := .error e }).status = 503) ∧
    (isResetNotFoundError e = false →
      isServiceTemporarilyUnavailable e = false →
      isUpstreamCommunicationError e = true →
      (postSystemResetHandler id taskID (.parsed rt)
        { powerState := ps, sendAction := .error e }).status = 502) ∧
    (isResetNotFoundError e = false →
      isServiceTemporarilyUnavailable e = false →
      isUpstreamCommunicationError e = false →
      (postSystemResetHandler id taskID (.parsed rt)
        { powerState := ps, sendAction := .error e }).status = 500) := by
  have hne : ¬rt = "" := by
    intro h
    rw [h] at hrt
    exact Option.noConfusion hrt
  refine ⟨?_, ?_, ?_, ?_⟩
  · intro h1
    simp [postSystemResetHandler, if_neg hne, hrt, hnc, resetErrorResponse,
      h1, ResourceNotFoundError]
  · intro h1 h2
    simp [postSystemResetHandler, if_neg hne, hrt, hnc, resetErrorResponse,
      h1, h2, ServiceTemporarilyUnavailableError]
  · intro h1 h2 h3
    simp [postSystemResetHandler, if_neg hne, hrt, hnc, resetErrorResponse,
      h1, h2, h3, ServiceUnavailableError]
  · intro h1 h2 h3
    simp [postSystemResetHandler, if_neg hne, hrt, hnc, resetErrorResponse,
      h1, h2, h3, GeneralError]

/-- Witness for C5 amended: one error text per classification bucket,
dispatched through the reset handler. -/
theorem C5_witness :
    (postSystemResetHandler "dev1" "100001" (.parsed "On")
      { powerState := .ok { PowerState := 7 },
        sendAction := .error "device not found" }).status = 404 ∧
    (postSystemResetHandler "dev1" "100001" (.parsed "On")
      { powerState := .ok { PowerState := 7 },
        sendAction := .error "rate limit exceeded" }).status = 503 ∧
    (postSystemResetHandler "dev1" "100001" (.parsed "On")
      { powerState := .ok { PowerState := 7 },
        sendAction := .error "dial tcp: i/o timeout" }).status = 502 ∧
    (postSystemResetHandler "dev1" "100001" (.parsed "On")
      { powerState := .ok { PowerState := 7 },
        sendAction := .error "disk corrupted" }).status = 500 := by
  refine ⟨?_, ?_, ?_, ?_⟩
  · exact (C5_reset_error_classification "dev1" "100001" "On"
      "device not found" 2 (.ok { PowerState := 7 }) rfl rfl).1 (by decide)
  · exact (C5_reset_error_classification "dev1" "100001" "On"
      "rate limit exceeded" 2 (.ok { PowerState := 7 }) rfl rfl).2.1
      (by decide) (by decide)
  · exact (C5_reset_error_classification "dev1" "100001" "On"
      "dial tcp: i/o timeout" 2 (.ok { PowerState := 7 }) rfl rfl).2.2.1
      (by decide) (by decide) (by decide)
  · exact (C5_reset_error_classification "dev1" "100001" "On"
      "disk corrupted" 2 (.ok { PowerState := 7 }) rfl rfl).2.2.2
      (by decide) (by decide) (by decide)

/-- Dropping leading quotes distributes over an append: when the first part
is consumed entirely the drop continues into the second part. -/
theorem dropWhile_quote_append (xs ys : List Char) :
    List.dropWhile quoteChar (xs ++ ys) =
      if List.dropWhile quoteChar xs = [] then List.dropWhile quoteChar ys
      else List.dropWhile quoteChar xs ++ ys := by
  induction xs with
  | nil => simp
  | cons x xs ih =>
    by_cases hx : quoteChar x = true
    · simp [List.dropWhile_cons, hx, ih]
    · simp [List.dropWhile_cons, hx]

/-- Trimming quotes from a value wrapped in one more quote on each side
gives the same characters as trimming the bare value. -/
theorem trimChars_quote (l : List Char) :
    trimChars ('"' :: (l ++ ['"'])) = trimChars l := by
  unfold trimChars
  have h0 : List.dropWhile quoteChar ('"' :: (l ++ ['"'])) =
      List.dropWhile quoteChar (l ++ ['"']) := by
    simp [List.dropWhile_cons, quoteChar]
  rw [h0, dropWhile_quote_append]
  by_cases h : List.dropWhile quoteChar l = []
  · simp [h, List.dropWhile_cons, quoteChar]
  · rw [if_neg h, List.reverse_append]
    simp [List.dropWhile_cons, quoteChar]

/-- String-level form of the quote-trimming lemma. -/
theorem goTrimQuotes_quote (e : String) :
    goTrimQuotes ("\"" ++ e ++ "\"") = goTrimQuotes e := by
  show String.mk (trimChars ('"' :: (e.data ++ ['"']))) =
    String.mk (trimChars e.data)
  rw [trimChars_quote]

/-- A quoted entity tag is never the empty string. -/
theorem quote_ne_empty (e : String) : "\"" ++ e ++ "\"" ≠ "" := by
  intro h
  have hd : ('"' :: (e.data ++ ['"']) : List Char) = [] := congrArg String.data h
  exact absurd hd (by simp)

/-- Strings with equal character data are equal. -/
theorem string_data_inj {s t : String} (h : s.data = t.data) : s = t := by
  cases s
  cases t
  cases h
  rfl

/-- Wrapping in quotes is injective. -/
theorem quote_inj {a b : String}
    (h : "\"" ++ a ++ "\"" = "\"" ++ b ++ "\"") : a = b := by
  have hd : ('"' :: (a.data ++ ['"']) : List Char) =
      '"' :: (b.data ++ ['"']) := congrArg String.data h
  have hd2 : a.data ++ ['"'] = b.data ++ ['"'] := by
    injection hd
  exact string_data_inj (List.append_cancel_right hd2)

/-- Inversion of a 200 answer of the chassis instance GET: every validator
passed, the hardware lookup succeeded, and the returned ETag header is the
quoted entity tag of the parsed chassis data. -/
theorem chassisOk_inversion (etagGen : ChassisInfo → String → String)
    (tb : String) (req : HttpRequest) (chassisID : String)
    (hwInfo : Except String GoValue) (etagHeader : String)
    (body : ChassisResource)
    (h : getChassisInstanceHandler etagGen tb req chassisID hwInfo =
      .ok etagHeader body) :
    chassisRequestError req = none ∧ chassisID ≠ "" ∧
    ∃ hw, hwInfo = .ok hw ∧
      validateIfMatchHeader req.ifMatch
        (etagGen (parseChassisInfo hw) tb) = true ∧
      validateIfNoneMatchHeader req.method req.ifNoneMatch
        (etagGen (parseChassisInfo hw) tb) = true ∧
      etagHeader = "\"" ++ etagGen (parseChassisInfo hw) tb ++ "\"" := by
  unfold getChassisInstanceHandler at h
  cases hq : chassisRequestError req with
  | some sb =>
    rw [hq] at h
    exact absurd h (by simp)
  | none =>
    rw [hq] at h
    by_cases hid : chassisID = ""
    · rw [if_pos hid] at h
      exact absurd h (by simp)
    · rw [if_neg hid] at h
      cases hwInfo with
      | error e => exact absurd h (by simp)
      | ok hw =>
        simp only at h
        refine ⟨rfl, hid, hw, rfl, ?_⟩
        by_cases hM : validateIfMatchHeader req.ifMatch
            (etagGen (parseChassisInfo hw) tb) = false
        · rw [if_pos hM] at h
          exact absurd h (by simp)
        · rw [if_neg hM] at h
          by_cases hNM : validateIfNoneMatchHeader req.method req.ifNoneMatch
              (etagGen (parseChassisInfo hw) tb) = false
          · rw [if_pos hNM] at h
            exact absurd h (by simp)
          · rw [if_neg hNM] at h
            refine ⟨by simpa using hM, by simpa using hNM, ?_⟩
            injection h with h1 h2
            exact h1.symm

/-- Computation rule for the 304 branch of the chassis instance GET. -/
theorem chassis_notModified (etagGen : ChassisInfo → String → String)
    (tb : String) (req : HttpRequest) (chassisID : String) (hw : GoValue)
    (h0 : chassisRequestError req = none) (hid : chassisID ≠ "")
    (hM : validateIfMatchHeader req.ifMatch
      (etagGen (parseChassisInfo hw) tb) = true)
    (hNM : validateIfNoneMatchHeader req.method req.ifNoneMatch
      (etagGen (parseChassisInfo hw) tb) = false) :
    getChassisInstanceHandler etagGen tb req chassisID (.ok hw) =
      .notModified := by
  unfold getChassisInstanceHandler
  rw [h0]
  simp only [if_neg hid, hM, hNM]
  simp

/-- C6: after a GET on a Chassis instance answers 200 with an ETag header,
re-issuing the same GET within the same time bucket with If-None-Match set
to that header value, to the bare tag without its surrounding quotes, or to
the star wildcard, answers 304 Not Modified with an empty body. -/
theorem C6_conditional_get (etagGen : ChassisInfo → String → String)
    (tb : String) (req : HttpRequest) (chassisID : String)
    (hwInfo : Except String GoValue) (etagHeader : String)
    (body : ChassisResource)
    (hm : req.method = "GET")
    (h1 : getChassisInstanceHandler etagGen tb req chassisID hwInfo =
      .ok etagHeader body) :
    getChassisInstanceHandler etagGen tb
      { req with ifNoneMatch := etagHeader } chassisID hwInfo =
      .notModified ∧
    (∀ rawEtag, etagHeader = "\"" ++ rawEtag ++ "\"" → rawEtag ≠ "" →
      getChassisInstanceHandler etagGen tb
        { req with ifNoneMatch := rawEtag } chassisID hwInfo =
        .notModified) ∧
    getChassisInstanceHandler etagGen tb
      { req with ifNoneMatch := "*" } chassisID hwInfo = .notModified := by
  obtain ⟨h0, hid, hw, hhw, hM, _, hhdr⟩ :=
    chassisOk_inversion etagGen tb req chassisID hwInfo etagHeader body h1
  subst hhw
  refine ⟨?_, ?_, ?_⟩
  · refine chassis_notModified etagGen tb _ chassisID hw h0 hid hM ?_
    rw [hhdr]
    simp only [validateIfNoneMatchHeader]
    rw [if_neg (not_or.mpr
      ⟨quote_ne_empty (etagGen (parseChassisInfo hw) tb),
       fun hB => hB hm⟩)]
    rw [if_pos (Or.inr (goTrimQuotes_quote (etagGen (parseChassisInfo hw) tb)))]
  · intro rawEtag hraw hne
    have heq : rawEtag = etagGen (parseChassisInfo hw) tb := by
      apply quote_inj
      rw [← hraw, hhdr]
    refine chassis_notModified etagGen tb _ chassisID hw h0 hid hM ?_
    simp only [validateIfNoneMatchHeader]
    rw [if_neg (not_or.mpr ⟨hne, fun hB => hB hm⟩)]
    rw [if_pos (Or.inr (by rw [heq]))]
  · refine chassis_notModified etagGen tb _ chassisID hw h0 hid hM ?_
    simp only [validateIfNoneMatchHeader]
    rw [if_neg (not_or.mpr ⟨by decide, fun hB => hB hm⟩)]
    rw [if_pos (Or.inl (by decide))]

/-- Witness for C6: a concrete GET answers 200 with the quoted tag, and the
three re-issue variants all answer 304. -/
theorem C6_witness :
    getChassisInstanceHandler (fun _ _ => "abcd1234") "2025-10-11T16"
      { method := "GET", accept := "application/json", contentType := "",
        contentLength := 0, ifMatch := "", ifNoneMatch := "\"abcd1234\"" }
      "chassis-1" (.ok .vnull) = .notModified ∧
    getChassisInstanceHandler (fun _ _ => "abcd1234") "2025-10-11T16"
      { method := "GET", accept := "application/json", contentType := "",
        contentLength := 0, ifMatch := "", ifNoneMatch := "abcd1234" }
      "chassis-1" (.ok .vnull) = .notModified ∧
    getChassisInstanceHandler (fun _ _ => "abcd1234") "2025-10-11T16"
      { method := "GET", accept := "application/json", contentType := "",
        contentLength := 0, ifMatch := "", ifNoneMatch := "*" }
      "chassis-1" (.ok .vnull) = .notModified := by
  have h1 : getChassisInstanceHandler (fun _ _ => "abcd1234") "2025-10-11T16"
      { method := "GET", accept := "application/json", contentType := "",
        contentLength := 0, ifMatch := "", ifNoneMatch := "" }
      "chassis-1" (.ok .vnull) =
      .ok "\"abcd1234\""
        (buildChassisInstance "chassis-1" (parseChassisInfo .vnull)
          "abcd1234") := by rfl
  have h := C6_conditional_get (fun _ _ => "abcd1234") "2025-10-11T16"
    { method := "GET", accept := "application/json", contentType := "",
      contentLength := 0, ifMatch := "", ifNoneMatch := "" }
    "chassis-1" (.ok .vnull) "\"abcd1234\""
    (buildChassisInstance "chassis-1" (parseChassisInfo .vnull) "abcd1234")
    rfl h1
  exact ⟨h.1, h.2.1 "abcd1234" rfl (by decide), h.2.2⟩

/-- Shape of the member-builder loop: skipping empty GUIDs and emitting one
reference per remaining device is a map over the filtered device list. -/
theorem filterMap_members_eq (p : String) (items : List Device) :
    items.filterMap (fun it =>
        if it.GUID = "" then none else some (p ++ it.GUID)) =
      (items.filter (fun d => d.GUID != "")).map (fun d => p ++ d.GUID) := by
  induction items with
  | nil => rfl
  | cons h t ih =>
    by_cases hg : h.GUID = "" <;>
      simp [List.filterMap_cons, List.filter_cons, hg, ih]

/-- C7: the Systems collection and the Chassis collection contain exactly
one member reference per device with a nonempty GUID, in device order, and
none for a device with an empty GUID; for the single device with GUID
device-1 the Systems members are exactly one reference to it. -/
theorem C7_collection_membership (items : List Device) :
    buildSystemsMembers items =
      (items.filter (fun d => d.GUID != "")).map
        (fun d => "/redfish/v1/Systems/" ++ d.GUID) ∧
    buildChassisMembers items =
      (items.filter (fun d => d.GUID != "")).map
        (fun d => "/redfish/v1/Chassis/" ++ d.GUID) ∧
    buildSystemsMembers
        [{ GUID := "device-1", Hostname := "server-1" },
         { GUID := "", Hostname := "anonymous" }] =
      ["/redfish/v1/Systems/device-1"] := by
  refine ⟨?_, ?_, by decide⟩
  · exact filterMap_members_eq "/redfish/v1/Systems/" items
  · exact filterMap_members_eq "/redfish/v1/Chassis/" items

/-- One decimal digit character is among the decimal characters. -/
theorem digitChar_decimal : ∀ d, d < 10 → digitChar d ∈ decimalChars := by
  decide

/-- The digit character map is injective below ten. -/
theorem digitChar_inj10 :
    ∀ d₁, d₁ < 10 → ∀ d₂, d₂ < 10 → digitChar d₁ = digitChar d₂ → d₁ = d₂ := by
  decide

/-- The fuel argument of natDigitsRev does not matter once it is at least
the value. -/
theorem natDigitsRev_fuel :
    ∀ f₁ f₂ n, n ≤ f₁ → n ≤ f₂ → natDigitsRev f₁ n = natDigitsRev f₂ n := by
  intro f₁
  induction f₁ with
  | zero =>
    intro f₂ n h₁ h₂
    have h0 : n = 0 := by omega
    subst h0
    cases f₂ with
    | zero => rfl
    | succ g => simp [natDigitsRev]
  | succ f ih =>
    intro f₂ n h₁ h₂
    cases n with
    | zero =>
      cases f₂ with
      | zero => rfl
      | succ g => simp [natDigitsRev]
    | succ m =>
      cases f₂ with
      | zero => omega
      | succ g =>
        simp only [natDigitsRev, if_neg (Nat.succ_ne_zero m)]
        congr 1
        exact ih g ((m + 1) / 10) (by omega) (by omega)

/-- Unfolding rule of digitsOf as a recursion on the value. -/
theorem digitsOf_step (n : Nat) :
    digitsOf n =
      if n = 0 then [] else digitChar (n % 10) :: digitsOf (n / 10) := by
  by_cases h0 : n = 0
  · subst h0
    rfl
  · rw [if_neg h0]
    cases n with
    | zero => exact absurd rfl h0
    | succ m =>
      show natDigitsRev (m + 1) (m + 1) = _
      simp only [natDigitsRev, if_neg (Nat.succ_ne_zero m)]
      congr 1
      exact natDigitsRev_fuel m ((m + 1) / 10) ((m + 1) / 10)
        (by omega) (le_refl _)

/-- Every character natDigitsRev produces is a decimal character. -/
theorem natDigitsRev_decimal :
    ∀ f n, ∀ c ∈ natDigitsRev f n, c ∈ decimalChars := by
  intro f
  induction f with
  | zero =>
    intro n c hc
    simp [natDigitsRev] at hc
  | succ g ih =>
    intro n c hc
    by_cases h0 : n = 0
    · simp [natDigitsRev, h0] at hc
    · rw [show natDigitsRev (g + 1) n =
          digitChar (n % 10) :: natDigitsRev g (n / 10) from by
            simp [natDigitsRev, h0]] at hc
      rcases List.mem_cons.mp hc with h | h
      · subst h
        exact digitChar_decimal _ (Nat.mod_lt n (by omega))
      · exact ih (n / 10) c h

/-- Every character of the decimal notation of an integer is a decimal
character. -/
theorem intFmt_decimal (i : Int) :
    ∀ c ∈ (intFmt i).data, c ∈ decimalChars := by
  intro c hc
  unfold intFmt at hc
  have hnat : ∀ d ∈ natToDecimal i.natAbs, d ∈ decimalChars := by
    intro d hd
    unfold natToDecimal at hd
    by_cases h0 : i.natAbs = 0
    · rw [if_pos h0] at hd
      simp at hd
      subst hd
      decide
    · rw [if_neg h0, List.mem_reverse] at hd
      exact natDigitsRev_decimal _ _ d hd
  by_cases hneg : i < 0
  · rw [if_pos hneg] at hc
    rcases List.mem_cons.mp hc with h | h
    · subst h
      decide
    · exact hnat c h
  · rw [if_neg hneg] at hc
    exact hnat c hc

/-- Lowercasing fixes decimal characters. -/
theorem toLower_decimalChars : ∀ c ∈ decimalChars, Char.toLower c = c := by
  decide

/-- Lowercasing fixes the decimal notation of an integer. -/
theorem goToLower_intFmt (i : Int) : goToLower (intFmt i) = intFmt i := by
  have hmap : ∀ l : List Char, (∀ c ∈ l, c ∈ decimalChars) →
      l.map Char.toLower = l := by
    intro l
    induction l with
    | nil => intro _; rfl
    | cons x xs ih =>
      intro hl
      simp only [List.map_cons]
      rw [toLower_decimalChars x (hl x (by simp)),
        ih (fun c hc => hl c (by simp [hc]))]
  show String.mk ((intFmt i).data.map Char.toLower) = intFmt i
  rw [hmap (intFmt i).data (intFmt_decimal i)]

/-- The decimal notation of a nonzero value is nonempty. -/
theorem digitsOf_ne_nil (n : Nat) (h : n ≠ 0) : digitsOf n ≠ [] := by
  rw [digitsOf_step, if_neg h]
  simp

/-- The decimal notation of a value of ten or more has at least two
characters. -/
theorem digitsOf_two_le (n : Nat) (h : 10 ≤ n) :
    2 ≤ (digitsOf n).length := by
  rw [digitsOf_step, if_neg (by omega)]
  simp only [List.length_cons]
  have h1 : n / 10 ≠ 0 := by omega
  have h2 := digitsOf_ne_nil (n / 10) h1
  have h3 : 0 < (digitsOf (n / 10)).length := List.length_pos.mpr h2
  omega

/-- The decimal notation of a natural number is a single digit character
exactly for the matching value below ten. -/
theorem natToDecimal_single (n d : Nat) (hd : d < 10) :
    natToDecimal n = [digitChar d] ↔ n = d := by
  constructor
  · intro h
    by_cases h0 : n = 0
    · subst h0
      have h' : (['0'] : List Char) = [digitChar d] := h
      have h1 : ('0' : Char) = digitChar d := by injection h'
      have h2 : digitChar 0 = digitChar d := h1
      exact (digitChar_inj10 0 (by omega) d hd h2).symm ▸ rfl
    · rcases Nat.lt_or_ge n 10 with hlt | hge
      · have hstep : digitsOf n = [digitChar n] := by
          rw [digitsOf_step, if_neg h0, Nat.div_eq_of_lt hlt,
            Nat.mod_eq_of_lt hlt]
          rfl
        have h' : natToDecimal n = [digitChar n] := by
          unfold natToDecimal
          rw [if_neg h0, hstep]
          rfl
        rw [h'] at h
        have h1 : digitChar n = digitChar d := by injection h
        exact digitChar_inj10 n hlt d hd h1
      · exfalso
        have hlen : 2 ≤ (digitsOf n).length := digitsOf_two_le n hge
        have h' : natToDecimal n = (digitsOf n).reverse := by
          unfold natToDecimal
          rw [if_neg h0]
        rw [h'] at h
        have h1 : (digitsOf n).length = 1 := by
          have := congrArg List.length h
          simpa using this
        omega
  · intro h
    subst h
    interval_cases n <;> decide

/-- The decimal notation of an integer is a single digit character exactly
for the matching nonnegative value below ten. -/
theorem intFmt_single (i : Int) (d : Nat) (hd : d < 10) :
    intFmt i = String.mk [digitChar d] ↔ i = (d : Int) := by
  constructor
  · intro h
    by_cases hneg : i < 0
    · exfalso
      rw [intFmt, if_pos hneg] at h
      have hdata : ('-' :: natToDecimal i.natAbs : List Char) =
          [digitChar d] := congrArg String.data h
      have h1 : ('-' : Char) = digitChar d := by injection hdata
      have h2 : ∀ e, e < 10 → digitChar e ≠ '-' := by decide
      exact h2 d hd h1.symm
    · rw [intFmt, if_neg hneg] at h
      have hdata : natToDecimal i.natAbs = [digitChar d] :=
        congrArg String.data h
      have h1 := (natToDecimal_single i.natAbs d hd).mp hdata
      omega
  · intro h
    subst h
    rw [intFmt, if_neg (by omega : ¬((d : Int) < 0))]
    have h1 : ((d : Int)).natAbs = d := by omega
    rw [h1]
    exact congrArg String.mk ((natToDecimal_single d d hd).mpr rfl)

/-- The decimal notation of an integer never equals a string holding a
character outside the decimal set. -/
theorem intFmt_ne_of_bad (i : Int) (s : String) (c : Char) (hc : c ∈ s.data)
    (hbad : c ∉ decimalChars) : intFmt i ≠ s := by
  intro h
  rw [← h] at hc
  exact hbad (intFmt_decimal i c hc)

/-- The package-type table applied to the decimal notation of an integer:
three and four hit the RackMount rows, two hits the Desktop row, and every
other integer falls through to Unknown. -/
theorem packageTypeLookup_intFmt (i : Int) :
    packageTypeLookup (intFmt i) =
      if i = 3 ∨ i = 4 then "RackMount"
      else if i = 2 then "Desktop"
      else "Unknown" := by
  have hrack := intFmt_ne_of_bad i "rack" 'r' (by decide) (by decide)
  have hrackmount := intFmt_ne_of_bad i "rackmount" 'r' (by decide) (by decide)
  have h1u := intFmt_ne_of_bad i "1u" 'u' (by decide) (by decide)
  have h2u := intFmt_ne_of_bad i "2u" 'u' (by decide) (by decide)
  have h4u := intFmt_ne_of_bad i "4u" 'u' (by decide) (by decide)
  have hdesk := intFmt_ne_of_bad i "desktop" 'd' (by decide) (by decide)
  have htower := intFmt_ne_of_bad i "tower" 't' (by decide) (by decide)
  have hmini := intFmt_ne_of_bad i "minitower" 'm' (by decide) (by decide)
  have h3 : (intFmt i = "3") ↔ i = 3 := by
    have := intFmt_single i 3 (by omega)
    rwa [show String.mk [digitChar 3] = "3" from by decide] at this
  have h4 : (intFmt i = "4") ↔ i = 4 := by
    have := intFmt_single i 4 (by omega)
    rwa [show String.mk [digitChar 4] = "4" from by decide] at this
  have h2 : (intFmt i = "2") ↔ i = 2 := by
    have := intFmt_single i 2 (by omega)
    rwa [show String.mk [digitChar 2] = "2" from by decide] at this
  simp only [packageTypeLookup, goToLower_intFmt, hrack, hrackmount, h1u,
    h2u, h4u, hdesk, htower, hmini, h3, h4, h2]
  simp

/-- C8 counterexample: the closest float64 to two point four is a numeric
input outside every row of the claimed lookup table, yet the mapping
answers Desktop, not Unknown, because the source formats numerics with the
percent dot zero f verb, rounding two point four down to the string 2. -/
theorem C8_counterexample :
    mapPackageTypeToChassisType
      (.vnum (mkRat 5404319552844595 2251799813685248)) = "Desktop" ∧
    mapPackageTypeToChassisType
      (.vnum (mkRat 5404319552844595 2251799813685248)) ≠ "Unknown" := by
  constructor
  · decide
  · decide

/-- C8 amended: the mapping is a case-insensitive lookup on strings as
claimed, and nil and non-string non-numeric values give Unknown; a numeric
input however is first formatted with no decimals, rounding its exact value
to the nearest integer with ties to even, so numerics rounding to 3 or 4
give RackMount, numerics rounding to 2 give Desktop, and every other
numeric gives Unknown; the function is total with range inside the three
chassis types. -/
theorem C8_package_type_mapping (s : String) :
    (goToLower s ∈ (["rack", "rackmount", "1u", "2u", "4u", "3", "4"] :
        List String) →
      mapPackageTypeToChassisType (.vstr s) = "RackMount") ∧
    (goToLower s ∈ (["desktop", "tower", "minitower", "2"] : List String) →
      mapPackageTypeToChassisType (.vstr s) = "Desktop") ∧
    (goToLower s ∉ (["rack", "rackmount", "1u", "2u", "4u", "3", "4",
        "desktop", "tower", "minitower", "2"] : List String) →
      mapPackageTypeToChassisType (.vstr s) = "Unknown") ∧
    (∀ q : ℚ, roundHalfEven q = 3 ∨ roundHalfEven q = 4 →
      mapPackageTypeToChassisType (.vnum q) = "RackMount") ∧
    (∀ q : ℚ, roundHalfEven q = 2 →
      mapPackageTypeToChassisType (.vnum q) = "Desktop") ∧
    (∀ q : ℚ, roundHalfEven q ≠ 2 → roundHalfEven q ≠ 3 →
      roundHalfEven q ≠ 4 →
      mapPackageTypeToChassisType (.vnum q) = "Unknown") ∧
    mapPackageTypeToChassisType .vnull = "Unknown" ∧
    (∀ m, mapPackageTypeToChassisType (.vmap m) = "Unknown") ∧
    (∀ l, mapPackageTypeToChassisType (.vlist l) = "Unknown") ∧
    mapPackageTypeToChassisType .vother = "Unknown" ∧
    (∀ v, mapPackageTypeToChassisType v = "RackMount" ∨
      mapPackageTypeToChassisType v = "Desktop" ∨
      mapPackageTypeToChassisType v = "Unknown") := by
  refine ⟨?_, ?_, ?_, ?_, ?_, ?_, rfl, fun m => rfl, fun l => rfl, rfl, ?_⟩
  · intro h
    simp only [List.mem_cons, List.not_mem_nil, or_false] at h
    rcases h with h | h | h | h | h | h | h <;>
      simp [mapPackageTypeToChassisType, packageTypeLookup, h]
  · intro h
    simp only [List.mem_cons, List.not_mem_nil, or_false] at h
    rcases h with h | h | h | h <;>
      simp [mapPackageTypeToChassisType, packageTypeLookup, h]
  · intro h
    simp only [List.mem_cons, List.not_mem_nil, or_false, not_or] at h
    obtain ⟨h1, h2, h3, h4, h5, h6, h7, h8, h9, h10, h11⟩ := h
    simp [mapPackageTypeToChassisType, packageTypeLookup,
      h1, h2, h3, h4, h5, h6, h7, h8, h9, h10, h11]
  · intro q hq
    show packageTypeLookup (fmt0f q) = "RackMount"
    unfold fmt0f
    rw [packageTypeLookup_intFmt, if_pos hq]
  · intro q hq
    show packageTypeLookup (fmt0f q) = "Desktop"
    unfold fmt0f
    rw [packageTypeLookup_intFmt,
      if_neg (by rw [hq]; omega), if_pos hq]
  · intro q hq2 hq3 hq4
    show packageTypeLookup (fmt0f q) = "Unknown"
    unfold fmt0f
    rw [packageTypeLookup_intFmt,
      if_neg (by omega : ¬(roundHalfEven q = 3 ∨ roundHalfEven q = 4)),
      if_neg hq2]
  · intro v
    cases v with
    | vstr s =>
      simp only [mapPackageTypeToChassisType, packageTypeLookup]
      split
      · exact Or.inl rfl
      · split
        · exact Or.inr (Or.inl rfl)
        · split
          · exact Or.inl rfl
          · split
            · exact Or.inr (Or.inl rfl)
            · exact Or.inr (Or.inr rfl)
    | vnum q =>
      show packageTypeLookup (fmt0f q) = _ ∨
        packageTypeLookup (fmt0f q) = _ ∨ packageTypeLookup (fmt0f q) = _
      unfold fmt0f
      rw [packageTypeLookup_intFmt]
      by_cases h34 : roundHalfEven q = 3 ∨ roundHalfEven q = 4
      · rw [if_pos h34]
        exact Or.inl rfl
      · rw [if_neg h34]
        by_cases h2 : roundHalfEven q = 2
        · rw [if_pos h2]
          exact Or.inr (Or.inl rfl)
        · rw [if_neg h2]
          exact Or.inr (Or.inr rfl)
    | vnull => exact Or.inr (Or.inr rfl)
    | vmap m => exact Or.inr (Or.inr rfl)
    | vlist l => exact Or.inr (Or.inr rfl)
    | vother => exact Or.inr (Or.inr rfl)

/-- Witness for C8 amended: the mixed-case string Rack, the Tower string,
an unlisted string, and numerics: the closest float64 to two point four
rounds to 2 and gives Desktop, three point six rounds to 4 and gives
RackMount, and five gives Unknown. -/
theorem C8_witness :
    mapPackageTypeToChassisType (.vstr "Rack") = "RackMount" ∧
    mapPackageTypeToChassisType (.vstr "Tower") = "Desktop" ∧
    mapPackageTypeToChassisType (.vstr "blade enclosure") = "Unknown" ∧
    mapPackageTypeToChassisType
      (.vnum (mkRat 5404319552844595 2251799813685248)) = "Desktop" ∧
    mapPackageTypeToChassisType (.vnum (mkRat 18 5)) = "RackMount" ∧
    mapPackageTypeToChassisType (.vnum (mkRat 5 1)) = "Unknown" := by
  refine ⟨?_, ?_, ?_, ?_, ?_, ?_⟩
  · exact (C8_package_type_mapping "Rack").1 (by decide)
  · exact (C8_package_type_mapping "Tower").2.1 (by decide)
  · exact (C8_package_type_mapping "blade enclosure").2.2.1 (by decide)
  · exact (C8_package_type_mapping "").2.2.2.2.1
      (mkRat 5404319552844595 2251799813685248) (by decide)
  · exact (C8_package_type_mapping "").2.2.2.1 (mkRat 18 5)
      (Or.inr (by decide))
  · exact (C8_package_type_mapping "").2.2.2.2.2.1 (mkRat 5 1)
      (by decide) (by decide) (by decide)

/-- C9: every error response produced by the error codec carries a 4xx or
5xx status and a body with error.code, error.message and a nonempty
Message.ExtendedInfo array whose first element has MessageId, Message,
Severity and Resolution populated, with Severity either Critical or
Warning. -/
theorem C9_error_body_shape (call : CodecCall) :
    400 ≤ (codecResponse call).1 ∧ (codecResponse call).1 ≤ 599 ∧
    ∃ info rest, (codecResponse call).2.extendedInfo = info :: rest ∧
      info.MessageId = (codecResponse call).2.code ∧
      info.Message = (codecResponse call).2.message ∧
      info.Resolution ≠ "" ∧
      (info.Severity = "Critical" ∨ info.Severity = "Warning") := by
  cases call <;>
    simp [codecResponse, MalformedJSONError, PropertyMissingError,
      PropertyValueNotInListError, ResourceNotFoundError,
      OperationNotAllowedError, GeneralError, redfishError]

/-- C10: for every id, GET Systems/id answers 200 with Id equal to the
requested id, even when the GetPowerState backend call fails; a power-state
lookup failure only degrades PowerState to Unknown. -/
theorem C10_system_get_always_200 (id : String)
    (r : Except String PowerStateDTO) :
    (getSystemInstanceHandler id r).1 = 200 ∧
    (getSystemInstanceHandler id r).2.Id = id ∧
    (∀ e, r = .error e →
      (getSystemInstanceHandler id r).2.PowerState = "Unknown") := by
  refine ⟨rfl, ?_, ?_⟩
  · cases r <;> rfl
  · intro e he
    subst he
    rfl

/-- Witness for C10 at a concrete unknown id and a failing backend call. -/
theorem C10_witness :
    (getSystemInstanceHandler "ghost-device" (.error "db down")).1 = 200 ∧
    (getSystemInstanceHandler "ghost-device" (.error "db down")).2.Id =
      "ghost-device" ∧
    (getSystemInstanceHandler "ghost-device" (.error "db down")).2.PowerState =
      "Unknown" := by
  have h := C10_system_get_always_200 "ghost-device" (.error "db down")
  exact ⟨h.1, h.2.1, h.2.2 "db down" rfl⟩

end redfishv1
